import Mathlib

/-!
Verification of the landslide-monitoring backend (Express + Firebase + Twilio).

The server has two files. The primary one registers the full
`POST /sensors` handler (risk classification, cooldown gate, SMS fan-out)
and `POST /alert`; the secondary `index.js` registers a simpler `/sensors`
handler that stores absent soil-moisture fields as `null`.

JavaScript values are shallowly embedded by `JsVal`; `NaN` is a dedicated
constructor, and numeric results of `Number(...)` are `Option ℚ` with
`none` standing for `NaN`.  External effects (Firestore reads, Twilio
sends, the current time) are passed in explicitly as a `World` record,
and a handler returns a pure `SensorOutcome` describing the response,
the stored reading, the set of phones an SMS send was attempted to, and
whether the device's `lastAlertSent` timestamp was written.
-/

/-- A JavaScript value as it can appear in a parsed JSON request body,
plus `NaN` (which `Number(...)` can produce) and `undefined` (an absent
field after destructuring). -/
inductive JsVal where
  | undef
  | null
  | nan
  | num (q : ℚ)
  | str (s : String)
  | bool (b : Bool)
  deriving DecidableEq, Repr

/-- Digits of a decimal literal to a natural number; `none` when a
non-digit character occurs.  An empty list gives `some 0` (callers guard
emptiness). -/
def decDigits? (cs : List Char) : Option Nat :=
  cs.foldl
    (fun acc c => acc.bind (fun a => if c.isDigit then some (a * 10 + (c.toNat - 48)) else none))
    (some 0)

/-- Strip leading and trailing whitespace from a character list (the
character-level counterpart of the trimming JS `Number` performs). -/
def trimChars (cs : List Char) : List Char :=
  ((cs.dropWhile Char.isWhitespace).reverse.dropWhile Char.isWhitespace).reverse

/-- Model of JavaScript `Number(s)` on a string, restricted to plain
decimal literals: the string is trimmed, the empty string is `0`, an
optional sign is followed by digits with at most one decimal point; any
other string (hex, exponent, `Infinity`, garbage) is `NaN` (`none`).
This model is only instantiated on strings where it agrees with JS. -/
def strToNumber (s : String) : Option ℚ :=
  let t := trimChars s.data
  if t = [] then some 0
  else
    let sign : ℚ := if t.head? = some '-' then -1 else 1
    let body := if t.head? = some '-' ∨ t.head? = some '+' then t.tail else t
    let ip := body.takeWhile (· ≠ '.')
    match body.dropWhile (· ≠ '.') with
    | [] =>
        if ip = [] then none
        else (decDigits? ip).map (fun n => sign * (n : ℚ))
    | _ :: fp =>
        if fp.contains '.' then none
        else if ip = [] ∧ fp = [] then none
        else
          (decDigits? ip).bind (fun i =>
            (decDigits? fp).map (fun f =>
              sign * ((i : ℚ) + mkRat (f : Int) (10 ^ fp.length))))

/-- JavaScript `Number(v)` coercion; `none` is `NaN`. -/
def toNumber : JsVal → Option ℚ
  | .undef => none
  | .null => some 0
  | .nan => none
  | .num q => some q
  | .str s => strToNumber s
  | .bool b => some (if b then 1 else 0)

/-- JavaScript truthiness of a value (`!v` negates this). -/
def truthy : JsVal → Bool
  | .undef => false
  | .null => false
  | .nan => false
  | .num q => decide (q ≠ 0)
  | .str s => decide (s ≠ "")
  | .bool b => b

/-- Wrap a `Number(...)` result back into a stored JS value (`NaN` when
the coercion failed). -/
def numToVal : Option ℚ → JsVal
  | some q => .num q
  | none => .nan

/-- A JS `>` comparison whose left operand may be `NaN`: every
comparison against `NaN` is false. -/
def optGt (x : Option ℚ) (c : ℚ) : Bool :=
  match x with
  | some q => decide (q > c)
  | none => false

/-- Request body of `POST /sensors` (each field may be absent, i.e.
`undef`). -/
structure SensorBody where
  device_id : JsVal
  soil_moisture_1 : JsVal
  soil_moisture_2 : JsVal
  soil_moisture_3 : JsVal
  tilt : JsVal
  vibration : JsVal
  deriving DecidableEq, Repr

/-- The validation predicate of the handler: all three soil-moisture
fields are strictly `undefined`. -/
def allSoilAbsent (b : SensorBody) : Prop :=
  b.soil_moisture_1 = .undef ∧ b.soil_moisture_2 = .undef ∧ b.soil_moisture_3 = .undef

instance (b : SensorBody) : Decidable (allSoilAbsent b) := by
  unfold allSoilAbsent; infer_instance

/-- `const sm1 = Number(soil_moisture_1) || 0` — `NaN` (and `0`) fall
through to `0`. -/
def normSm1 (b : SensorBody) : ℚ := (toNumber b.soil_moisture_1).getD 0

/-- `const sm2 = Number(soil_moisture_2) || 0`. -/
def normSm2 (b : SensorBody) : ℚ := (toNumber b.soil_moisture_2).getD 0

/-- `const sm3 = Number(soil_moisture_3) || 0`. -/
def normSm3 (b : SensorBody) : ℚ := (toNumber b.soil_moisture_3).getD 0

/-- `tilt = 0` destructuring default, then `const tiltDeg = Number(tilt)`
with no `|| 0` fallback: a present non-numeric value stays `NaN`. -/
def normTilt (b : SensorBody) : Option ℚ :=
  toNumber (if b.tilt = .undef then .num 0 else b.tilt)

/-- `vibration = 0` destructuring default, then
`const vibG = Number(vibration)` with no `|| 0` fallback. -/
def normVib (b : SensorBody) : Option ℚ :=
  toNumber (if b.vibration = .undef then .num 0 else b.vibration)

/-- Alert tier and message. -/
structure Classification where
  alertLevel : Nat
  alertMessage : String
  deriving DecidableEq, Repr

/-- The risk-indicator count: one per independently true threshold check
(`sm1 > 60; sm2 > 65; sm3 > 65; tilt > 2; vibration > 0.03`). -/
def riskCount (sm1 sm2 sm3 : ℚ) (tiltDeg vibG : Option ℚ) : Nat :=
  (if sm1 > 60 then 1 else 0) + (if sm2 > 65 then 1 else 0) + (if sm3 > 65 then 1 else 0)
    + (if optGt tiltDeg 2 then 1 else 0) + (if optGt vibG (mkRat 3 100) then 1 else 0)

/-- The critical escalation condition of the handler. -/
def criticalCond (sm1 sm2 sm3 : ℚ) (tiltDeg vibG : Option ℚ) : Prop :=
  (sm1 > 75 ∧ sm2 > 80 ∧ sm3 > 85)
    ∨ (optGt tiltDeg 5 ∧ optGt vibG (mkRat 8 100))
    ∨ (sm1 > 75 ∧ optGt tiltDeg 5)
    ∨ optGt vibG (mkRat 20 100)

instance (sm1 sm2 sm3 : ℚ) (t v : Option ℚ) : Decidable (criticalCond sm1 sm2 sm3 t v) := by
  unfold criticalCond; infer_instance

/-- The alert-level calculation of the handler: start at Normal, escalate
to Warning when the risk count reaches 3, then the critical check runs
last and may overwrite. -/
def classify (sm1 sm2 sm3 : ℚ) (tiltDeg vibG : Option ℚ) : Classification :=
  let base : Classification :=
    if riskCount sm1 sm2 sm3 tiltDeg vibG ≥ 3 then ⟨2, "Intermediate Warning"⟩
    else ⟨1, "Normal but Monitored"⟩
  if criticalCond sm1 sm2 sm3 tiltDeg vibG then ⟨3, "Critical - Imminent Failure"⟩
  else base

/-- Classification of a raw request body after normalization. -/
def classifyBody (b : SensorBody) : Classification :=
  classify (normSm1 b) (normSm2 b) (normSm3 b) (normTilt b) (normVib b)

/-- The reading pushed to the realtime database by the full handler
(the server timestamp is omitted). -/
structure Reading where
  device_id : JsVal
  soil_moisture_1 : JsVal
  soil_moisture_2 : JsVal
  soil_moisture_3 : JsVal
  tilt : JsVal
  vibration : JsVal
  alert_level : Nat
  alert_message : String
  deriving DecidableEq, Repr

/-- The reading object the full handler builds and stores. -/
def mkReading (b : SensorBody) : Reading :=
  { device_id := if b.device_id = .undef then .str "ESP32_001" else b.device_id
    soil_moisture_1 := .num (normSm1 b)
    soil_moisture_2 := .num (normSm2 b)
    soil_moisture_3 := .num (normSm3 b)
    tilt := numToVal (normTilt b)
    vibration := numToVal (normVib b)
    alert_level := (classifyBody b).alertLevel
    alert_message := (classifyBody b).alertMessage }

/-- A Firestore `devices/{id}` document: a nullable `lastAlertSent`
timestamp in epoch milliseconds. -/
structure DeviceRecord where
  lastAlertSent : Option Int
  deriving DecidableEq, Repr

/-- An `alert_subscribers` document: `phoneNumber` may be absent. -/
structure Subscriber where
  phoneNumber : Option String
  deriving DecidableEq, Repr

/-- The external state a `/sensors` request observes: the device's
Firestore record (absent when never written), the current time
`Date.now()`, the subscriber list, and the outcome each Twilio send to a
given phone would have. -/
structure World where
  deviceRecord : Option DeviceRecord
  now : Int
  subscribers : List Subscriber
  sendOk : String → Bool

/-- `deviceSnap.data()?.lastAlertSent?.toMillis() || 0` — an absent
record or absent field reads as epoch 0. -/
def lastAlertOf (w : World) : Int :=
  (w.deviceRecord.bind (fun d => d.lastAlertSent)).getD 0

/-- `cooldownMinutes * 60 * 1000` with `cooldownMinutes = 15`. -/
def cooldownWindowMs : Int := 15 * 60 * 1000

/-- JS `phone.startsWith('+')` (the argument is the single character
`'+'`, so this is a test on the first character). -/
def headIsPlus (p : String) : Bool :=
  match p.data with
  | c :: _ => c = '+'
  | [] => false

/-- Phones an SMS is built for: each subscriber in document order whose
`phoneNumber` is truthy and starts with `"+"`. -/
def eligiblePhones (subs : List Subscriber) : List String :=
  subs.foldr
    (fun sub acc =>
      match sub.phoneNumber with
      | some p => if p ≠ "" ∧ headIsPlus p then p :: acc else acc
      | none => acc)
    []

/-- The resolved outcomes of the concurrent sends: each promise settles
independently (a rejection is caught per-promise and recorded as
`false`). -/
def smsResults (subs : List Subscriber) (sendOk : String → Bool) : List Bool :=
  (eligiblePhones subs).map sendOk

/-- `smsCount` after `Promise.all`: the number of sends whose `.then`
ran. -/
def smsSuccessCount (subs : List Subscriber) (sendOk : String → Bool) : Nat :=
  (smsResults subs sendOk).count true

/-- The alert branch of the full handler, for a computed alert level:
yields `(smsCount, phones attempted, lastAlertSent written?)`.  Mirrors
the nesting of the source: only levels ≥ 2 consult the gate; inside the
window everything is skipped; with an empty subscriber snapshot nothing
is sent and the timestamp is NOT written; otherwise sends are attempted
to the eligible phones and the timestamp is written after `Promise.all`
regardless of individual outcomes. -/
def fanOutDecision (lvl : Nat) (w : World) : Nat × List String × Bool :=
  if lvl ≥ 2 then
    if w.now - lastAlertOf w < cooldownWindowMs then (0, [], false)
    else if w.subscribers = [] then (0, [], false)
    else (smsSuccessCount w.subscribers w.sendOk, eligiblePhones w.subscribers, true)
  else (0, [], false)

/-- Observable outcome of one `POST /sensors` request. -/
structure SensorOutcome where
  status : Nat
  alert_level : Option Nat
  alert_message : Option String
  sms_sent_count : Option Nat
  stored : Option Reading
  smsAttempted : List String
  lastAlertUpdated : Bool

/-- The full `POST /sensors` handler as a pure function of the body and
the external world. -/
def handleSensors (b : SensorBody) (w : World) : SensorOutcome :=
  if allSoilAbsent b then
    { status := 400, alert_level := none, alert_message := none, sms_sent_count := none
      stored := none, smsAttempted := [], lastAlertUpdated := false }
  else
    let c := classifyBody b
    let d := fanOutDecision c.alertLevel w
    { status := 200, alert_level := some c.alertLevel, alert_message := some c.alertMessage
      sms_sent_count := some d.1, stored := some (mkReading b)
      smsAttempted := d.2.1, lastAlertUpdated := d.2.2 }

/-- The record the secondary handler (in `index.js`) stores: absent
soil-moisture fields become `null`, `vibration` is collapsed to a 0/1
flag by `Number(vibration) ? 1 : 0`. -/
structure LegacyData where
  device_id : JsVal
  soil_moisture_1 : JsVal
  soil_moisture_2 : JsVal
  soil_moisture_3 : JsVal
  vibration : Nat
  deriving DecidableEq, Repr

/-- The secondary `/sensors` handler of `index.js`: `none` is the 400
validation rejection, otherwise the stored record. -/
def handleSensorsLegacy (b : SensorBody) : Option LegacyData :=
  if allSoilAbsent b then none
  else
    some
      { device_id := if b.device_id = .undef then .str "ESP32_001" else b.device_id
        soil_moisture_1 :=
          if b.soil_moisture_1 ≠ .undef then numToVal (toNumber b.soil_moisture_1) else .null
        soil_moisture_2 :=
          if b.soil_moisture_2 ≠ .undef then numToVal (toNumber b.soil_moisture_2) else .null
        soil_moisture_3 :=
          if b.soil_moisture_3 ≠ .undef then numToVal (toNumber b.soil_moisture_3) else .null
        vibration :=
          match toNumber b.vibration with
          | some q => if q ≠ 0 then 1 else 0
          | none => 0 }

/-- A `users/{uid}` Firestore document. -/
structure UserDoc where
  phoneNumber : Option String
  deriving DecidableEq, Repr

/-- External state a `POST /alert` request observes: whether the
Firestore read throws (with what message), the user document if the read
succeeds, and whether the Twilio send rejects (with what message). -/
structure AlertWorld where
  firestoreErr : Option String
  userDoc : Option UserDoc
  twilioErr : Option String
  deriving DecidableEq, Repr

/-- `getUserPhone(uid)`: `null` when the document is missing, the phone
is falsy or does not start with `"+"`, or the Firestore read throws (the
error is caught and swallowed into `null`). -/
def getUserPhone (w : AlertWorld) : Option String :=
  if w.firestoreErr.isSome then none
  else
    match w.userDoc with
    | none => none
    | some d =>
      match d.phoneNumber with
      | none => none
      | some p => if p ≠ "" ∧ headIsPlus p then some p else none

/-- Request body of `POST /alert`. -/
structure AlertBody where
  uid : JsVal
  message : JsVal
  deriving DecidableEq, Repr

/-- Observable outcome of one `POST /alert` request. -/
structure AlertOutcome where
  status : Nat
  sentTo : Option String
  details : Option String
  deriving DecidableEq, Repr

/-- The `POST /alert` handler as a pure function of body and world. -/
def handleAlert (b : AlertBody) (w : AlertWorld) : AlertOutcome :=
  if ¬ truthy b.uid ∨ ¬ truthy b.message then ⟨400, none, none⟩
  else
    match getUserPhone w with
    | none => ⟨404, none, none⟩
    | some phone =>
      match w.twilioErr with
      | some e => ⟨500, none, some e⟩
      | none => ⟨200, some phone, none⟩

/-- The claim's reading of the classifier — risk-indicator count written
from the spec sentence. -/
def specRiskCount (sm1 sm2 sm3 t v : ℚ) : Nat :=
  (if sm1 > 60 then 1 else 0) + (if sm2 > 65 then 1 else 0) + (if sm3 > 65 then 1 else 0)
    + (if t > 2 then 1 else 0) + (if v > mkRat 3 100 then 1 else 0)

/-- The claim's reading of the critical escalation condition, written
from the spec sentence. -/
def specCritical (sm1 sm2 sm3 t v : ℚ) : Prop :=
  (sm1 > 75 ∧ sm2 > 80 ∧ sm3 > 85) ∨ (t > 5 ∧ v > mkRat 8 100) ∨ (sm1 > 75 ∧ t > 5)
    ∨ v > mkRat 20 100

instance (sm1 sm2 sm3 t v : ℚ) : Decidable (specCritical sm1 sm2 sm3 t v) := by
  unfold specCritical; infer_instance

/-- The claim's reading of the whole classifier: Critical overrides
Warning, Warning at risk count ≥ 3, otherwise Normal. -/
def specTier (sm1 sm2 sm3 t v : ℚ) : Classification :=
  if specCritical sm1 sm2 sm3 t v then ⟨3, "Critical - Imminent Failure"⟩
  else if specRiskCount sm1 sm2 sm3 t v ≥ 3 then ⟨2, "Intermediate Warning"⟩
  else ⟨1, "Normal but Monitored"⟩

/-- A body whose three soil readings put it exactly at risk count 3,
i.e. tier Warning. -/
def warnBody : SensorBody :=
  ⟨.undef, .num 70, .num 70, .num 70, .undef, .undef⟩

/-- A quiet world: no device record, epoch clock, no subscribers. -/
def w0 : World := ⟨none, 0, [], fun _ => false⟩

/-- A world far past any cooldown with one valid subscriber whose sends
succeed. -/
def w1 : World := ⟨none, 1000000000, [⟨some "+15550001"⟩], fun _ => true⟩

/-- A world far past any cooldown with an empty subscriber snapshot. -/
def wEmptySubs : World := ⟨none, 1000000000, [], fun _ => false⟩

/-- A body with only the first soil-moisture field present. -/
def partialSoilBody : SensorBody :=
  ⟨.undef, .num 50, .undef, .undef, .undef, .undef⟩

/-- A body whose `tilt` is a present but non-numeric string. -/
def nonNumericTiltBody : SensorBody :=
  ⟨.undef, .num 50, .undef, .undef, .str "abc", .undef⟩

/-- A body whose `device_id` is present but the empty string. -/
def emptyDeviceBody : SensorBody :=
  ⟨.str "", .num 50, .undef, .undef, .undef, .undef⟩

/-- A body whose three soil-moisture fields are all present but `null`,
with `tilt` and `vibration` absent. -/
def nullSoilBody : SensorBody :=
  ⟨.undef, .null, .null, .null, .undef, .undef⟩

/-- A body with all three soil-moisture fields absent. -/
def allAbsentBody : SensorBody :=
  ⟨.str "dev7", .undef, .undef, .undef, .num 9, .num 1⟩

/-- A well-formed `POST /alert` body. -/
def alertBodyOk : AlertBody := ⟨.str "u1", .str "evacuate now"⟩

/-- An alert world where the Firestore directory read throws, while the
user record (had the read succeeded) carries a valid phone and the SMS
transport works. -/
def dirFailWorld : AlertWorld :=
  ⟨some "socket hang up", some ⟨some "+15550001"⟩, none⟩

/-! ## Helper lemmas -/

theorem optGt_none (c : ℚ) : optGt none c = false := rfl

theorem optGt_some (q c : ℚ) : optGt (some q) c = decide (q > c) := rfl

theorem count_true_map (f : String → Bool) (l : List String) :
    (l.map f).count true = (l.filter f).length := by
  induction l with
  | nil => rfl
  | cons a l ih =>
      cases h : f a <;> simp [List.count_cons, List.filter_cons, h, ih]

/-! ## Claims -/

/-- C1: the classifier counts one risk indicator per condition among
sm1 > 60, sm2 > 65, sm3 > 65, tilt > 2, vibration > 0.03; the tier is
Warning ("Intermediate Warning") at count ≥ 3, Critical
("Critical - Imminent Failure") whenever any of the four severe
conditions holds — the Critical check overriding Warning — and Normal
("Normal but Monitored") otherwise. -/
theorem classifier_matches_spec (sm1 sm2 sm3 t v : ℚ) :
    classify sm1 sm2 sm3 (some t) (some v) = specTier sm1 sm2 sm3 t v := by
  unfold classify specTier criticalCond specCritical riskCount specRiskCount
  by_cases hc :
      (sm1 > 75 ∧ sm2 > 80 ∧ sm3 > 85) ∨ (t > 5 ∧ v > mkRat 8 100) ∨ (sm1 > 75 ∧ t > 5)
        ∨ v > mkRat 20 100
  · simp [optGt, hc]
  · simp [optGt, hc]

/-- C4: a request with all three soil-moisture fields absent is rejected
with a 400 before any effect: nothing is stored, no classification
appears in the response, no SMS is attempted and no device state is
written; and a field that is present — even with value 0 — counts as
present, so the request is not rejected. -/
theorem missing_soil_rejected (b : SensorBody) (w : World) (h : allSoilAbsent b) :
    ((handleSensors b w).status = 400 ∧ (handleSensors b w).stored = none
      ∧ (handleSensors b w).alert_level = none ∧ (handleSensors b w).alert_message = none
      ∧ (handleSensors b w).smsAttempted = [] ∧ (handleSensors b w).lastAlertUpdated = false)
    ∧ (∀ b' : SensorBody, ∀ w' : World,
        b'.soil_moisture_1 = JsVal.num 0 → (handleSensors b' w').status = 200) := by
  constructor
  · simp [handleSensors, if_pos h]
  · intro b' w' h0
    have hv : ¬ allSoilAbsent b' := by
      simp [allSoilAbsent, h0]
    simp [handleSensors, if_neg hv]

/-- C4 witness: the concrete all-absent body is rejected, and a body
with soil_moisture_1 = 0 passes validation. -/
theorem missing_soil_rejected_witness :
    allSoilAbsent allAbsentBody
    ∧ (((handleSensors allAbsentBody w0).status = 400
        ∧ (handleSensors allAbsentBody w0).stored = none
        ∧ (handleSensors allAbsentBody w0).alert_level = none
        ∧ (handleSensors allAbsentBody w0).alert_message = none
        ∧ (handleSensors allAbsentBody w0).smsAttempted = []
        ∧ (handleSensors allAbsentBody w0).lastAlertUpdated = false)
      ∧ (∀ b' : SensorBody, ∀ w' : World,
          b'.soil_moisture_1 = JsVal.num 0 → (handleSensors b' w').status = 200)) :=
  ⟨by decide, missing_soil_rejected allAbsentBody w0 (by decide)⟩

/-- C10: a request whose three soil-moisture fields are all present but
null passes validation (the check tests only for undefined), each null
coerces to 0, and with tilt and vibration absent the reading is tier
Normal; the request is accepted with a 200 response. -/
theorem null_soil_accepted (w : World) :
    (handleSensors nullSoilBody w).status = 200
    ∧ (handleSensors nullSoilBody w).alert_level = some 1
    ∧ (handleSensors nullSoilBody w).alert_message = some "Normal but Monitored"
    ∧ normSm1 nullSoilBody = 0 ∧ normSm2 nullSoilBody = 0 ∧ normSm3 nullSoilBody = 0
    ∧ (handleSensors nullSoilBody w).sms_sent_count = some 0 :=
  ⟨rfl, rfl, rfl, rfl, rfl, rfl, rfl⟩

/-- C2: for an alert-eligible reading (tier ≥ Warning), elapsed time
under the 15-minute window skips fan-out entirely (no SMS attempted,
count 0, no state write); elapsed time at or past the window lets
fan-out proceed over the eligible subscribers; and an absent device
record reads as last-alert-sent = epoch 0, i.e. the gate is armed. -/
theorem cooldown_gate_behavior (b : SensorBody) (w : World)
    (hv : ¬ allSoilAbsent b) (hl : 2 ≤ (classifyBody b).alertLevel) :
    (w.now - lastAlertOf w < cooldownWindowMs →
      (handleSensors b w).smsAttempted = [] ∧ (handleSensors b w).sms_sent_count = some 0
        ∧ (handleSensors b w).lastAlertUpdated = false)
    ∧ (cooldownWindowMs ≤ w.now - lastAlertOf w →
      (handleSensors b w).smsAttempted = eligiblePhones w.subscribers
        ∧ (handleSensors b w).sms_sent_count
            = some (smsSuccessCount w.subscribers w.sendOk))
    ∧ (w.deviceRecord = none → lastAlertOf w = 0) := by
  refine ⟨?_, ?_, ?_⟩
  · intro hcool
    simp [handleSensors, if_neg hv, fanOutDecision, hl, hcool]
  · intro hcool
    have hnc : ¬ (w.now - lastAlertOf w < cooldownWindowMs) := not_lt.mpr hcool
    by_cases hs : w.subscribers = []
    · simp [handleSensors, if_neg hv, fanOutDecision, hl, hnc, hs, smsSuccessCount,
        smsResults, eligiblePhones]
    · simp [handleSensors, if_neg hv, fanOutDecision, hl, hnc, hs]
  · intro hd
    simp [lastAlertOf, hd]

/-- C2 witness: at the concrete Warning body and the concrete world far
past any cooldown. -/
theorem cooldown_gate_behavior_witness :
    (¬ allSoilAbsent warnBody ∧ 2 ≤ (classifyBody warnBody).alertLevel)
    ∧ ((w1.now - lastAlertOf w1 < cooldownWindowMs →
        (handleSensors warnBody w1).smsAttempted = []
          ∧ (handleSensors warnBody w1).sms_sent_count = some 0
          ∧ (handleSensors warnBody w1).lastAlertUpdated = false)
      ∧ (cooldownWindowMs ≤ w1.now - lastAlertOf w1 →
        (handleSensors warnBody w1).smsAttempted = eligiblePhones w1.subscribers
          ∧ (handleSensors warnBody w1).sms_sent_count
              = some (smsSuccessCount w1.subscribers w1.sendOk))
      ∧ (w1.deviceRecord = none → lastAlertOf w1 = 0)) :=
  ⟨⟨by decide, by decide⟩, cooldown_gate_behavior warnBody w1 (by decide) (by decide)⟩

/-- C3: the fan-out is a gather-all operation: its count is exactly the
number of eligible sends that succeed (a failing send does not cancel
the others and no exception escapes — the count is total in every
outcome function); an empty subscriber set yields 0; a phone without the
leading "+" is silently skipped; and with 3 subscribers where send #2
fails the count is 2. -/
theorem fanout_isolated_count :
    (∀ (subs : List Subscriber) (sendOk : String → Bool),
      smsSuccessCount subs sendOk = ((eligiblePhones subs).filter sendOk).length)
    ∧ (∀ sendOk : String → Bool, smsSuccessCount [] sendOk = 0)
    ∧ eligiblePhones [⟨some "+111"⟩, ⟨some "09170001"⟩, ⟨none⟩] = ["+111"]
    ∧ smsSuccessCount [⟨some "+111"⟩, ⟨some "+222"⟩, ⟨some "+333"⟩]
        (fun p => p ≠ "+222") = 2
    ∧ (∀ (b : SensorBody) (w : World), ¬ allSoilAbsent b → (handleSensors b w).status = 200) := by
  refine ⟨?_, ?_, by decide, by decide, ?_⟩
  · intro subs sendOk
    simpa [smsSuccessCount, smsResults] using count_true_map sendOk (eligiblePhones subs)
  · intro sendOk
    rfl
  · intro b w hv
    simp [handleSensors, if_neg hv]

/-- C3 witness: the per-request part applied at a concrete valid body
and world. -/
theorem fanout_isolated_count_witness :
    ¬ allSoilAbsent warnBody ∧ (handleSensors warnBody w1).status = 200 :=
  ⟨by decide, fanout_isolated_count.2.2.2.2 warnBody w1 (by decide)⟩

/-- C5 counterexample: a Warning-tier reading far past the cooldown
window whose resolved subscriber set is empty — the claim says the
last-alert-sent timestamp is still written, but the handler skips the
write (it sits inside the non-empty-subscribers branch). -/
theorem no_timestamp_update_without_subscribers :
    2 ≤ ((handleSensors warnBody wEmptySubs).alert_level.getD 0)
    ∧ cooldownWindowMs ≤ wEmptySubs.now - lastAlertOf wEmptySubs
    ∧ wEmptySubs.subscribers = []
    ∧ (handleSensors warnBody wEmptySubs).lastAlertUpdated = false := by
  decide

/-- C5 amended: for an accepted reading, the device's last-alert-sent
timestamp is written exactly when the tier is ≥ Warning, the cooldown
window has elapsed, AND the resolved subscriber set is non-empty; the
write does not depend on how many individual sends succeed, and never
happens under suppression. -/
theorem lastAlert_update_iff (b : SensorBody) (w : World) (hv : ¬ allSoilAbsent b) :
    (handleSensors b w).lastAlertUpdated = true ↔
      (2 ≤ (classifyBody b).alertLevel ∧ cooldownWindowMs ≤ w.now - lastAlertOf w
        ∧ w.subscribers ≠ []) := by
  simp only [handleSensors, if_neg hv, fanOutDecision]
  by_cases hl : (classifyBody b).alertLevel ≥ 2
  · by_cases hcool : w.now - lastAlertOf w < cooldownWindowMs
    · simp [hl, hcool, not_le.mpr hcool]
    · by_cases hs : w.subscribers = []
      · simp [hl, hcool, hs]
      · simp [hl, hcool, hs, not_lt.mp hcool]
  · simp [hl]

/-- C5 amended witness: at the Warning body and the world with one
subscriber, past the window. -/
theorem lastAlert_update_iff_witness :
    ¬ allSoilAbsent warnBody
    ∧ ((handleSensors warnBody w1).lastAlertUpdated = true ↔
        (2 ≤ (classifyBody warnBody).alertLevel
          ∧ cooldownWindowMs ≤ w1.now - lastAlertOf w1 ∧ w1.subscribers ≠ [])) :=
  ⟨by decide, lastAlert_update_iff warnBody w1 (by decide)⟩

/-- C6 counterexample: in the full handler a soil-moisture field absent
from the input is stored as the number 0, not as null — at the concrete
body whose second and third fields are absent, the stored reading's
soil_moisture_2 is the number 0. -/
theorem absent_soil_stored_as_zero :
    ((handleSensors partialSoilBody w0).stored.map Reading.soil_moisture_2)
      = some (JsVal.num 0)
    ∧ ((handleSensors partialSoilBody w0).stored.map Reading.soil_moisture_2)
        ≠ some JsVal.null := by
  decide

/-- C6 amended: the full handler stores every soil-moisture field as the
classification value (so an absent field is stored as 0, never null);
it is the secondary handler of index.js that stores null for an absent
field and the coerced number for a present one. -/
theorem soil_storage_defaults (b : SensorBody) (w : World) (hv : ¬ allSoilAbsent b) :
    ((handleSensors b w).stored.map Reading.soil_moisture_1)
        = some (JsVal.num (normSm1 b))
    ∧ ((handleSensors b w).stored.map Reading.soil_moisture_2)
        = some (JsVal.num (normSm2 b))
    ∧ ((handleSensors b w).stored.map Reading.soil_moisture_3)
        = some (JsVal.num (normSm3 b))
    ∧ (b.soil_moisture_1 = JsVal.undef → normSm1 b = 0)
    ∧ (b.soil_moisture_2 = JsVal.undef → normSm2 b = 0)
    ∧ (b.soil_moisture_3 = JsVal.undef → normSm3 b = 0)
    ∧ ((handleSensorsLegacy b).map LegacyData.soil_moisture_1)
        = some (if b.soil_moisture_1 = JsVal.undef then JsVal.null
            else numToVal (toNumber b.soil_moisture_1))
    ∧ ((handleSensorsLegacy b).map LegacyData.soil_moisture_2)
        = some (if b.soil_moisture_2 = JsVal.undef then JsVal.null
            else numToVal (toNumber b.soil_moisture_2))
    ∧ ((handleSensorsLegacy b).map LegacyData.soil_moisture_3)
        = some (if b.soil_moisture_3 = JsVal.undef then JsVal.null
            else numToVal (toNumber b.soil_moisture_3)) := by
  refine ⟨?_, ?_, ?_, ?_, ?_, ?_, ?_, ?_, ?_⟩
  · simp [handleSensors, if_neg hv, mkReading]
  · simp [handleSensors, if_neg hv, mkReading]
  · simp [handleSensors, if_neg hv, mkReading]
  · intro h; simp [normSm1, h, toNumber]
  · intro h; simp [normSm2, h, toNumber]
  · intro h; simp [normSm3, h, toNumber]
  · simp only [handleSensorsLegacy, if_neg hv, Option.map_some]
    by_cases h : b.soil_moisture_1 = JsVal.undef <;> simp [h]
  · simp only [handleSensorsLegacy, if_neg hv, Option.map_some]
    by_cases h : b.soil_moisture_2 = JsVal.undef <;> simp [h]
  · simp only [handleSensorsLegacy, if_neg hv, Option.map_some]
    by_cases h : b.soil_moisture_3 = JsVal.undef <;> simp [h]

/-- C6 amended witness: at the body whose second field is absent. -/
theorem soil_storage_defaults_witness :
    ¬ allSoilAbsent partialSoilBody
    ∧ ((handleSensors partialSoilBody w0).stored.map Reading.soil_moisture_2)
        = some (JsVal.num (normSm2 partialSoilBody))
    ∧ ((handleSensorsLegacy partialSoilBody).map LegacyData.soil_moisture_2)
        = some (if partialSoilBody.soil_moisture_2 = JsVal.undef then JsVal.null
            else numToVal (toNumber partialSoilBody.soil_moisture_2)) :=
  ⟨by decide, (soil_storage_defaults partialSoilBody w0 (by decide)).2.1,
    (soil_storage_defaults partialSoilBody w0 (by decide)).2.2.2.2.2.2.2.1⟩

/-- C7 counterexample: a present but non-numeric `tilt` is NOT coerced
to 0 — the normalizer leaves it NaN (there is no fallback after
`Number(tilt)`), and the stored reading carries NaN. -/
theorem nonnumeric_tilt_is_nan :
    normTilt nonNumericTiltBody = none
    ∧ normTilt nonNumericTiltBody ≠ some 0
    ∧ ((handleSensors nonNumericTiltBody w0).stored.map Reading.tilt) = some JsVal.nan := by
  decide

/-- C7 amended: `tilt` and `vibration` default to 0 only when absent; a
present non-numeric value becomes NaN, and since every classifier
comparison against NaN is false, the reading classifies exactly as if
the value were 0 (the claim's conclusion about classification survives,
the coercion to 0 does not). -/
theorem nan_tilt_vib_classified_as_zero (sm1 sm2 sm3 : ℚ) (t v : Option ℚ) :
    classify sm1 sm2 sm3 none v = classify sm1 sm2 sm3 (some 0) v
    ∧ classify sm1 sm2 sm3 t none = classify sm1 sm2 sm3 t (some 0)
    ∧ (∀ b : SensorBody, b.tilt = JsVal.undef → normTilt b = some 0)
    ∧ (∀ b : SensorBody, b.vibration = JsVal.undef → normVib b = some 0) := by
  have h2 : optGt (some (0 : ℚ)) 2 = false := by decide
  have h5 : optGt (some (0 : ℚ)) 5 = false := by decide
  have h3 : optGt (some (0 : ℚ)) (mkRat 3 100) = false := by decide
  have h8 : optGt (some (0 : ℚ)) (mkRat 8 100) = false := by decide
  have h20 : optGt (some (0 : ℚ)) (mkRat 20 100) = false := by decide
  refine ⟨?_, ?_, ?_, ?_⟩
  · simp [classify, riskCount, criticalCond, optGt_none, h2, h3, h5, h8, h20]
  · simp [classify, riskCount, criticalCond, optGt_none, h2, h3, h5, h8, h20]
  · intro b h; simp [normTilt, h, toNumber]
  · intro b h; simp [normVib, h, toNumber]

/-- C7 amended witness: at the body with everything absent but the soil
nulls, tilt defaults to 0. -/
theorem nan_tilt_vib_classified_as_zero_witness :
    nullSoilBody.tilt = JsVal.undef ∧ normTilt nullSoilBody = some 0 :=
  ⟨by decide, (nan_tilt_vib_classified_as_zero 0 0 0 none none).2.2.1 nullSoilBody (by decide)⟩

/-- C8 counterexample: when the Firestore directory lookup throws, the
error is caught inside getUserPhone and swallowed into null, so the
response is 404 — not the 500 with surfaced detail the claim requires
for a dependency failure. -/
theorem directory_failure_yields_404 :
    dirFailWorld.firestoreErr.isSome = true
    ∧ (handleAlert alertBodyOk dirFailWorld).status = 404
    ∧ (handleAlert alertBodyOk dirFailWorld).status ≠ 500 := by
  decide

/-- C8 amended: POST /alert yields 400 exactly when uid or message is
falsy (in particular missing); 404 exactly when getUserPhone resolves
null — which covers an absent user, a missing or non-"+" phone, AND a
failed directory lookup (its error is swallowed); and 500 with the
underlying detail surfaced exactly when a phone resolves and the SMS
transport fails. -/
theorem alert_status_taxonomy (b : AlertBody) (w : AlertWorld) :
    (((handleAlert b w).status = 400 ↔ (¬ truthy b.uid ∨ ¬ truthy b.message))
      ∧ ((handleAlert b w).status = 404 ↔
          (truthy b.uid ∧ truthy b.message ∧ getUserPhone w = none))
      ∧ ((handleAlert b w).status = 500 ↔
          (truthy b.uid ∧ truthy b.message ∧ (getUserPhone w).isSome ∧ w.twilioErr.isSome))
      ∧ ((handleAlert b w).status = 500 → (handleAlert b w).details = w.twilioErr))
    ∧ (w.firestoreErr.isSome → getUserPhone w = none) := by
  constructor
  · by_cases hu : truthy b.uid = true
    · by_cases hm : truthy b.message = true
      · rcases hp : getUserPhone w with _ | phone
        · simp [handleAlert, hu, hm, hp]
        · rcases ht : w.twilioErr with _ | e
          · simp [handleAlert, hu, hm, hp, ht]
          · simp [handleAlert, hu, hm, hp, ht]
      · simp [handleAlert, hu, hm]
    · simp [handleAlert, hu]
  · intro hf
    simp [getUserPhone, hf]

/-- C8 amended witness: the taxonomy at the concrete directory-failure
world and well-formed body. -/
theorem alert_status_taxonomy_witness :
    (((handleAlert alertBodyOk dirFailWorld).status = 400 ↔
        (¬ truthy alertBodyOk.uid ∨ ¬ truthy alertBodyOk.message))
      ∧ ((handleAlert alertBodyOk dirFailWorld).status = 404 ↔
          (truthy alertBodyOk.uid ∧ truthy alertBodyOk.message
            ∧ getUserPhone dirFailWorld = none))
      ∧ ((handleAlert alertBodyOk dirFailWorld).status = 500 ↔
          (truthy alertBodyOk.uid ∧ truthy alertBodyOk.message
            ∧ (getUserPhone dirFailWorld).isSome ∧ dirFailWorld.twilioErr.isSome))
      ∧ ((handleAlert alertBodyOk dirFailWorld).status = 500 →
          (handleAlert alertBodyOk dirFailWorld).details = dirFailWorld.twilioErr))
    ∧ (dirFailWorld.firestoreErr.isSome → getUserPhone dirFailWorld = none) :=
  alert_status_taxonomy alertBodyOk dirFailWorld

/-- C9 counterexample: a present but empty `device_id` is NOT replaced
by the placeholder — the destructuring default fires only on undefined,
so the empty string is kept. -/
theorem empty_device_id_kept :
    ((handleSensors emptyDeviceBody w0).stored.map Reading.device_id) = some (JsVal.str "")
    ∧ JsVal.str "" ≠ JsVal.str "ESP32_001" := by
  decide

/-- C9 amended: the normalizer defaults `device_id` to "ESP32_001" only
when the field is absent (undefined); any present value — the empty
string included — is kept as-is. -/
theorem device_id_default_only_when_absent (b : SensorBody) (w : World)
    (hv : ¬ allSoilAbsent b) :
    ((handleSensors b w).stored.map Reading.device_id)
      = some (if b.device_id = JsVal.undef then JsVal.str "ESP32_001" else b.device_id) := by
  simp [handleSensors, if_neg hv, mkReading]

/-- C9 amended witness: at the empty-string device id. -/
theorem device_id_default_only_when_absent_witness :
    ¬ allSoilAbsent emptyDeviceBody
    ∧ ((handleSensors emptyDeviceBody w0).stored.map Reading.device_id)
        = some (if emptyDeviceBody.device_id = JsVal.undef then JsVal.str "ESP32_001"
            else emptyDeviceBody.device_id) :=
  ⟨by decide, device_id_default_only_when_absent emptyDeviceBody w0 (by decide)⟩
